import Mathlib

/-!
Shallow embedding of the contract-deployment command module of the
vscode-azure-blockchain-ethereum extension (src/unnamed/part_000:
TruffleCommands and its helper functions; src/src/Models/TreeItems/Project.ts:
Project.getRPCAddress).

Effectful TypeScript functions are embedded as pure functions that return the
list of externally visible actions they perform, in order (the trace), or an
Except value when they can throw.  Data records mirror the TypeScript
interfaces field by field; union types (string | number) become inductives.
-/

set_option autoImplicit false

namespace AzureBlockchain

namespace Constants

/-- Modelled from the spec: Constants.ts is not under src.  The code comment in
getTruffleDeployFunction and getServiceCreateFunction says that, at this
moment, ganache-cli starts only on port 8545, which is the default localhost
port interpolated into localGanacheRegexp and compared with a local node port. -/
def defaultLocalhostPort : Nat := 8545

/-- Modelled from the spec: Constants.ts is not under src.  The label of the
static default deploy destination (uiCommandStrings.createProject); its exact
text is immaterial to every claim, only its identity is used. -/
def createProject : String := "Create a new network"

/-- Modelled from the spec: Constants.ts is not under src.  Message shown after
copying the RPC endpoint to the clipboard; exact text immaterial. -/
def rpcEndpointCopiedToClipboard : String := "RPC endpoint copied to clipboard"

/-- Modelled from the spec: Constants.ts is not under src.  Message shown after
copying the derived private key to the clipboard; exact text immaterial. -/
def privateKeyWasCopiedToClipboard : String := "Private key copied to clipboard"

/-- Modelled from the spec: Constants.ts is not under src.  Error shown when a
selected mnemonic file has no text; exact text immaterial. -/
def mnemonicFileHaveNoText : String := "Mnemonic file has no text"

/-- Modelled from the spec: Constants.ts is not under src.  Error shown when
the key-derivation library calls throw; exact text immaterial. -/
def invalidMnemonic : String := "Invalid mnemonic"

/-- Modelled from the spec: Constants.ts is not under src.  The
validationMessages.openZeppelinFilesAreInvalid message built from the invalid
contract paths; exact text immaterial. -/
def openZeppelinFilesAreInvalid (invalidPaths : List String) : String :=
  "OpenZeppelin files are invalid: " ++ String.intercalate ", " invalidPaths

end Constants

/-- The network_id field of a truffle network: TypeScript type string | number. -/
inductive NetworkId where
  | num (n : Int)
  | str (s : String)
  deriving DecidableEq, Repr

/-- Kind of a tree NetworkNode: the instanceof LocalNetworkNode test in
getServiceCreateFunction distinguishes local nodes (which carry a port) from
the other NetworkNode subclasses. -/
inductive NetworkNodeKind where
  | localNetworkNode (port : Nat)
  | otherNetworkNode
  deriving DecidableEq, Repr

/-- A NetworkNode tree item.  Its label and networkId fields are read directly
in getTreeDeployDestinations; rpcAddress models the value returned by the
async getRPCAddress method and truffleNetworkName the name of the network
returned by getTruffleNetwork (both methods live outside src and are modelled
from the spec as stored data of the node). -/
structure NetworkNode where
  kind : NetworkNodeKind
  label : String
  networkId : NetworkId
  rpcAddress : String
  truffleNetworkName : String
  deriving DecidableEq, Repr

/-- A child of a Project tree item: either a NetworkNode or some other item;
the code filters children with instanceof NetworkNode. -/
inductive ProjectChild where
  | network (node : NetworkNode)
  | other (label : String)
  deriving DecidableEq, Repr

/-- The instanceof NetworkNode filter on a child list, as used both in
Project.getRPCAddress and getTreeDeployDestinations. -/
def projectChildNetwork : ProjectChild → Option NetworkNode
  | .network node => some node
  | .other _ => none

/-- A Project tree item (src/src/Models/TreeItems/Project.ts): only its child
list matters to the embedded methods. -/
structure Project where
  children : List ProjectChild
  deriving DecidableEq, Repr

/-- A service tree item held by the TreeManager; getTreeDeployDestinations
casts all of its children to Project. -/
structure Service where
  children : List Project
  deriving DecidableEq, Repr

/-- The deployment function chosen for a destination.  In the TypeScript code
the cmd field is a closure obtained by binding one of the named deployment
functions to its arguments; the inductive records which function was bound and
with which arguments. -/
inductive DeployStrategy where
  | createNewDeploymentService (truffleConfigPath : String)
  | deployToLocalGanache (name truffleConfigPath url : String)
  | deployToMainNetwork (name truffleConfigPath : String)
  | deployToNetwork (name truffleConfigPath : String)
  | createLocalGanacheNetwork (node : NetworkNode) (truffleConfigPath : String)
  | createNetwork (node : NetworkNode) (truffleConfigPath : String)
  deriving DecidableEq, Repr

/-- The IDeployDestination interface.  The optional cwd field (path.dirname of
the config path) is omitted: no embedded claim reads it. -/
structure IDeployDestination where
  cmd : DeployStrategy
  description : Option String
  detail : Option String
  label : String
  networkId : NetworkId
  deriving DecidableEq, Repr

/-!
## The localGanacheRegexp match

The regular expression is built as
new RegExp(template of 127\.0\.0\.1\:port, the g flag).  Inside the
JavaScript template literal the backslash escapes are processed first and an
unrecognised escape yields the bare character, so the pattern source that
reaches RegExp is 127.0.0.1:8545 with no backslashes: each dot is the regex
wildcard matching any single character, and url.match performs an unanchored
substring search.  The pattern is embedded as a list of character matchers
(some c = literal, none = wildcard).
-/

/-- The pattern source of localGanacheRegexp after JavaScript string-escape
processing: literal digits and colon, wildcard dots. -/
def localGanachePatternChars : List (Option Char) :=
  [some (Char.ofNat 49), some (Char.ofNat 50), some (Char.ofNat 55), none,
   some (Char.ofNat 48), none, some (Char.ofNat 48), none,
   some (Char.ofNat 49), some (Char.ofNat 58)]
  ++ (toString Constants.defaultLocalhostPort).toList.map some

/-- Does the pattern match a prefix of the character list? -/
def matchesAt : List Char → List (Option Char) → Bool
  | _, [] => true
  | [], _ :: _ => false
  | c :: cs, p :: ps =>
    (match p with
     | some d => c == d
     | none => true) && matchesAt cs ps

/-- Unanchored substring search of the pattern, as url.match performs. -/
def searchPatternIn : List Char → List (Option Char) → Bool
  | cs, ps =>
    matchesAt cs ps ||
      (match cs with
       | [] => false
       | _ :: rest => searchPatternIn rest ps)

/-- url.match(localGanacheRegexp) returns a non-null result. -/
def localGanacheUrlMatch (url : String) : Bool :=
  searchPatternIn url.toList localGanachePatternChars

/-- The network-id test on line 301: networkId === 1 || networkId === the
string 1. -/
def isMainNetworkId : NetworkId → Bool
  | .num n => n == 1
  | .str s => s == "1"

/-- getTruffleDeployFunction (src/unnamed/part_000 lines 292-308): local
ganache match first, then main-network id, else plain network. -/
def getTruffleDeployFunction (url name truffleConfigPath : String)
    (networkId : NetworkId) : DeployStrategy :=
  if localGanacheUrlMatch url then
    .deployToLocalGanache name truffleConfigPath url
  else if isMainNetworkId networkId then
    .deployToMainNetwork name truffleConfigPath
  else
    .deployToNetwork name truffleConfigPath

/-- getServiceCreateFunction (lines 310-321): a LocalNetworkNode on the
default localhost port gets the local ganache creation strategy, every other
node gets createNetwork. -/
def getServiceCreateFunction (networkNode : NetworkNode)
    (truffleConfigPath : String) : DeployStrategy :=
  match networkNode.kind with
  | .localNetworkNode port =>
    if port == Constants.defaultLocalhostPort then
      .createLocalGanacheNetwork networkNode truffleConfigPath
    else
      .createNetwork networkNode truffleConfigPath
  | .otherNetworkNode => .createNetwork networkNode truffleConfigPath

/-!
## Destination lists
-/

/-- The options object of a network in the truffle configuration
(TruffleConfiguration.INetwork).  provider, when present, is reduced to its
url field, the only field the code reads. -/
structure INetworkOptions where
  provider : Option String
  host : Option String
  port : Option Nat
  network_id : NetworkId
  deriving DecidableEq, Repr

/-- A network entry of the truffle configuration. -/
structure INetwork where
  name : String
  options : INetworkOptions
  deriving DecidableEq, Repr

/-- The url computed on lines 252-253: the provider url if present (the
template renders a missing provider as the empty string, and an empty string
is falsy, so the host and port fallback is used); the host and port parts are
each rendered empty when falsy (absent, empty host, port 0). -/
def truffleNetworkUrl (options : INetworkOptions) : String :=
  let providerPart :=
    match options.provider with
    | some u => u
    | none => ""
  if providerPart ≠ "" then providerPart
  else
    (match options.host with
     | some h => h
     | none => "") ++
    (match options.port with
     | some p => if p == 0 then "" else ":" ++ toString p
     | none => "")

/-- getDefaultDeployDestinations (lines 235-243): one static entry whose cmd
is createNewDeploymentService bound to the config path. -/
def getDefaultDeployDestinations (truffleConfigPath : String) :
    List IDeployDestination :=
  [{ cmd := .createNewDeploymentService truffleConfigPath
     description := none
     detail := none
     label := Constants.createProject
     networkId := .str "*" }]

/-- getTruffleDeployDestinations (lines 245-266); the list of networks read
from the configuration file is passed in as data. -/
def getTruffleDeployDestinations (truffleConfigPath : String)
    (networksFromConfig : List INetwork) : List IDeployDestination :=
  networksFromConfig.map fun network =>
    let url := truffleNetworkUrl network.options
    { cmd := getTruffleDeployFunction url network.name truffleConfigPath
        network.options.network_id
      description := some url
      detail := some "From truffle-config.js"
      label := network.name
      networkId := network.options.network_id }

/-- The first reduce of getTreeDeployDestinations (lines 271-274): push all
children of every service, in order, into one project list. -/
def treeProjects (services : List Service) : List Project :=
  services.foldl (fun res service => res ++ service.children) []

/-- The second reduce (lines 276-279): push the NetworkNode children of every
project, in order, into one node list. -/
def treeNetworks (projects : List Project) : List NetworkNode :=
  projects.foldl
    (fun res project => res ++ project.children.filterMap projectChildNetwork) []

/-- getTreeDeployDestinations (lines 268-290): one destination per collected
NetworkNode, labelled with the node label, described by its RPC address and
carrying its network id. -/
def getTreeDeployDestinations (truffleConfigPath : String)
    (services : List Service) : List IDeployDestination :=
  (treeNetworks (treeProjects services)).map fun network =>
    { cmd := getServiceCreateFunction network truffleConfigPath
      description := some network.rpcAddress
      detail := some "Tree Item"
      label := network.label
      networkId := network.networkId }

/-- The destination assembly of deployContracts (lines 90-97): an empty array
into which the three source lists are pushed in order. -/
def deployContractsDestinations (truffleConfigsUri : String)
    (networksFromConfig : List INetwork) (services : List Service) :
    List IDeployDestination :=
  let defaultDeployDestinations := getDefaultDeployDestinations truffleConfigsUri
  let truffleDeployDestinations :=
    getTruffleDeployDestinations truffleConfigsUri networksFromConfig
  let treeDeployDestinations := getTreeDeployDestinations truffleConfigsUri services
  ((([] : List IDeployDestination) ++ defaultDeployDestinations)
    ++ truffleDeployDestinations) ++ treeDeployDestinations

/-- The filter on lines 99-102, applied to the assembled list before the
quick-pick.  Its predicate ignores the element and returns true (the FIXME
comment in the source says the filter by URL is missing). -/
def uniqueDestinations (deployDestinations : List IDeployDestination) :
    List IDeployDestination :=
  deployDestinations.filter fun _ => true

/-!
## Traces of the effectful deployment functions
-/

/-- The externally visible actions of the deployment functions, in program
order.  startGanacheServer carries an Option because deployToLocalGanache
passes through the possibly-undefined result of getPortFromUrl with a
non-null assertion. -/
inductive Event where
  | showConfirmPaidOperationDialog
  | startGanacheServer (port : Option Nat)
  | setNetworks (networkName : String)
  | ensureDir
  | executeMigrate (networkName : String)
  | updateContracts
  | writeToClipboard (text : String)
  | showInformationMessage (message : String)
  | showErrorMessage (message : String)
  deriving DecidableEq, Repr

/-- Split a character list on colons, keeping empty segments, mirroring a
string split. -/
def splitOnColon : List Char → List (List Char)
  | [] => [[]]
  | c :: cs =>
    if c == Char.ofNat 58 then [] :: splitOnColon cs
    else
      match splitOnColon cs with
      | r :: rs => (c :: r) :: rs
      | [] => [[c]]

/-- The decimal value of a digit character. -/
def digitValue (c : Char) : Option Nat :=
  if 48 ≤ c.toNat && c.toNat ≤ 57 then some (c.toNat - 48) else none

def parseNatCharsAux : List Char → Nat → Option Nat
  | [], acc => some acc
  | c :: cs, acc =>
    match digitValue c with
    | some d => parseNatCharsAux cs (acc * 10 + d)
    | none => none

/-- Decimal parse of a non-empty all-digit character list. -/
def parseNatChars : List Char → Option Nat
  | [] => none
  | c :: cs => parseNatCharsAux (c :: cs) 0

/-- Modelled from the spec: GanacheService.getPortFromUrl is not under src;
per the claim it extracts the port component of the URL (the decimal number
after the final colon), undefined when there is none. -/
def getPortFromUrl (url : String) : Option Nat :=
  match (splitOnColon url.toList).reverse with
  | portPart :: _ :: _ => parseNatChars portPart
  | _ => none

/-- deployToNetwork (lines 368-384): ensure the workspace directory, run the
truffle migrate command for the network, update the contract database. -/
def deployToNetworkTrace (networkName : String) : List Event :=
  [.ensureDir, .executeMigrate networkName, .updateContracts]

/-- deployToMainNetwork (lines 393-397): await the paid-operation
confirmation dialog, then deploy.  The dialog can throw (the user declines);
confirmed being false models that throw, which ends the run. -/
def deployToMainNetworkTrace (networkName : String) (confirmed : Bool) :
    List Event :=
  if confirmed then
    .showConfirmPaidOperationDialog :: deployToNetworkTrace networkName
  else
    [.showConfirmPaidOperationDialog]

/-- deployToLocalGanache (lines 386-391): start the ganache server on the
port extracted from the url, then deploy. -/
def deployToLocalGanacheTrace (networkName truffleConfigPath url : String) :
    List Event :=
  .startGanacheServer (getPortFromUrl url) :: deployToNetworkTrace networkName

/-- The port stored in a node when it is a LocalNetworkNode. -/
def nodePort (node : NetworkNode) : Option Nat :=
  match node.kind with
  | .localNetworkNode port => some port
  | .otherNetworkNode => none

/-- createNetwork (lines 360-366): write the network obtained from
getTruffleNetwork into the truffle configuration, then deploy to it. -/
def createNetworkTrace (networkNode : NetworkNode) (truffleConfigPath : String) :
    List Event :=
  .setNetworks networkNode.truffleNetworkName
    :: deployToNetworkTrace networkNode.truffleNetworkName

/-- createLocalGanacheNetwork (lines 355-358): start the ganache server on
the port of the local node, then createNetwork. -/
def createLocalGanacheNetworkTrace (localNetworkNode : NetworkNode)
    (truffleConfigPath : String) : List Event :=
  .startGanacheServer (nodePort localNetworkNode)
    :: createNetworkTrace localNetworkNode truffleConfigPath

/-!
## OpenZeppelin validation and the deployContracts run
-/

/-- OZContractValidated (services/openZeppelin/OpenZeppelinService). -/
structure OZContractValidated where
  contractPath : String
  isExistedOnDisk : Bool
  isHashValid : Bool
  deriving DecidableEq, Repr

/-- The invalid paths computed on lines 222-224: contracts missing on disk or
with an invalid hash. -/
def invalidContractsPaths (validatedContracts : List OZContractValidated) :
    List String :=
  (validatedContracts.filter fun ozContract =>
      !ozContract.isExistedOnDisk || !ozContract.isHashValid).map
    OZContractValidated.contractPath

/-- validateOpenZeppelinContracts (lines 210-233): throws the
openZeppelinFilesAreInvalid error when the invalid path list is non-empty. -/
def validateOpenZeppelinContracts (validatedContracts : List OZContractValidated) :
    Except String Unit :=
  if (invalidContractsPaths validatedContracts).length ≠ 0 then
    .error (Constants.openZeppelinFilesAreInvalid
      (invalidContractsPaths validatedContracts))
  else
    .ok ()

/-- The tail of deployContracts (lines 128-130) after the destination was
selected: validateOpenZeppelinContracts is awaited, and only if it returns
does command.cmd() run.  The actions the selected command would perform are
passed in as cmdTrace; a thrown validation error propagates and the command
never runs. -/
def deployContractsRun (cmdTrace : List Event)
    (validatedContracts : List OZContractValidated) : Except String (List Event) :=
  match validateOpenZeppelinContracts validatedContracts with
  | .error e => .error e
  | .ok _ => .ok cmdTrace

/-!
## Mnemonic key derivation
-/

/-- An apostrophe character, used in the hardened segments of the derivation
path. -/
def apostrophe : String := String.mk [Char.ofNat 39]

/-- The derivation path literal passed to key.derive on line 198. -/
def hdDerivationPath : String :=
  "m/44" ++ apostrophe ++ "/60" ++ apostrophe ++ "/0" ++ apostrophe ++ "/0/0"

/-- The external key-derivation libraries (bip39 and hdkey) used on lines
196-199, abstracted over their seed and key types.  Each call can throw,
modelled by Except. -/
structure MnemonicLib (Seed HdKey : Type) where
  mnemonicToSeed : String → Except String Seed
  fromMasterSeed : Seed → Except String HdKey
  deriveChild : HdKey → String → Except String HdKey
  privateKeyHex : HdKey → Except String String

/-- The derivation pipeline of lines 196-199: BIP-39 seed of the mnemonic,
HD key from the master seed, child key at the fixed derivation path, hex
encoding of its private key. -/
def derivedPrivateKey {Seed HdKey : Type} (lib : MnemonicLib Seed HdKey)
    (mnemonic : String) : Except String String := do
  let buffer ← lib.mnemonicToSeed mnemonic
  let key ← lib.fromMasterSeed buffer
  let childKey ← lib.deriveChild key hdDerivationPath
  lib.privateKeyHex childKey

/-- The tail of getPrivateKeyFromMnemonic (lines 188-206) once a mnemonic
item was selected: an empty mnemonic text shows an error and returns; else
the try block derives the key and copies it to the clipboard, and a throw
from the library calls shows the invalid-mnemonic error instead. -/
def getPrivateKeyFromMnemonicRun {Seed HdKey : Type}
    (lib : MnemonicLib Seed HdKey) (mnemonic : String) : List Event :=
  if mnemonic = "" then
    [.showErrorMessage Constants.mnemonicFileHaveNoText]
  else
    match derivedPrivateKey lib mnemonic with
    | .ok privateKey =>
      [.writeToClipboard privateKey,
       .showInformationMessage Constants.privateKeyWasCopiedToClipboard]
    | .error _ => [.showErrorMessage Constants.invalidMnemonic]

/-!
## Project.getRPCAddress and writeRPCEndpointAddressToBuffer
-/

/-- Project.getRPCAddress (src/src/Models/TreeItems/Project.ts lines 15-23):
filter the children that are NetworkNode instances; the empty string when
there are none, else the RPC address of the first. -/
def Project.getRPCAddress (project : Project) : String :=
  let networkNodes := project.children.filterMap projectChildNetwork
  match networkNodes with
  | [] => ""
  | node :: _ => node.rpcAddress

/-- TruffleCommands.writeRPCEndpointAddressToBuffer (lines 151-162): fetch
the RPC address of the project behind the view item; only a truthy (non-empty)
string is written to the clipboard, followed by the confirmation message. -/
def writeRPCEndpointAddressToBufferRun (project : Project) : List Event :=
  let rpcEndpointAddress := project.getRPCAddress
  if rpcEndpointAddress ≠ "" then
    [.writeToClipboard rpcEndpointAddress,
     .showInformationMessage Constants.rpcEndpointCopiedToClipboard]
  else
    []

/-!
## Helper lemmas
-/

/-- The push-into-accumulator reduce over services equals the flattened map. -/
theorem treeProjects_foldl (services : List Service) (init : List Project) :
    services.foldl (fun res service => res ++ service.children) init =
      init ++ (services.map fun service => service.children).flatten := by
  induction services generalizing init with
  | nil => simp
  | cons s ss ih => simp [ih]

/-- The push-into-accumulator reduce over projects equals the flattened map. -/
theorem treeNetworks_foldl (projects : List Project) (init : List NetworkNode) :
    projects.foldl
        (fun res project => res ++ project.children.filterMap projectChildNetwork)
        init =
      init ++ (projects.map fun project =>
        project.children.filterMap projectChildNetwork).flatten := by
  induction projects generalizing init with
  | nil => simp
  | cons p ps ih => simp [ih]

theorem treeProjects_eq (services : List Service) :
    treeProjects services = (services.map fun service => service.children).flatten := by
  simpa [treeProjects] using treeProjects_foldl services []

theorem treeNetworks_eq (projects : List Project) :
    treeNetworks projects =
      (projects.map fun project =>
        project.children.filterMap projectChildNetwork).flatten := by
  simpa [treeNetworks] using treeNetworks_foldl projects []

/-!
## Claims
-/

/-- C1: the claim says the list presented by the quick-pick is deduplicated by
URL; the filter on lines 99-102 keeps every element (its own FIXME comment
says filtering by URL is missing), so a configuration with two networks that
share the URL example.com:1234 is presented with both duplicates. -/
theorem uniqueDestinations_keeps_duplicate_urls :
    (uniqueDestinations (deployContractsDestinations "truffle-config.js"
        [⟨"a", ⟨none, some "example.com", some 1234, .str "3"⟩⟩,
         ⟨"b", ⟨none, some "example.com", some 1234, .str "3"⟩⟩] [])).map
          IDeployDestination.description =
      [none, some "example.com:1234", some "example.com:1234"] := by
  decide

/-- C2: getTruffleDeployFunction sends a destination whose url matches
localGanacheRegexp to deployToLocalGanache, regardless of network id (the
match rule precedes the id rule); otherwise network id 1 (number or string)
goes to deployToMainNetwork; otherwise to deployToNetwork. -/
theorem getTruffleDeployFunction_classification (url name truffleConfigPath : String)
    (networkId : NetworkId) :
    (localGanacheUrlMatch url = true →
      getTruffleDeployFunction url name truffleConfigPath networkId =
        .deployToLocalGanache name truffleConfigPath url)
    ∧ (localGanacheUrlMatch url = false → isMainNetworkId networkId = true →
      getTruffleDeployFunction url name truffleConfigPath networkId =
        .deployToMainNetwork name truffleConfigPath)
    ∧ (localGanacheUrlMatch url = false → isMainNetworkId networkId = false →
      getTruffleDeployFunction url name truffleConfigPath networkId =
        .deployToNetwork name truffleConfigPath) := by
  refine ⟨fun h => ?_, fun h h1 => ?_, fun h h1 => ?_⟩
  · simp [getTruffleDeployFunction, h]
  · simp [getTruffleDeployFunction, h, h1]
  · simp [getTruffleDeployFunction, h, h1]

/-- Witness for C2 at one concrete input per branch: the local ganache URL
wins even with network id 5, a main-network id goes to deployToMainNetwork,
and an ordinary remote destination goes to deployToNetwork. -/
theorem getTruffleDeployFunction_classification_witness :
    getTruffleDeployFunction "127.0.0.1:8545" "development" "t.js" (.num 5) =
        .deployToLocalGanache "development" "t.js" "127.0.0.1:8545"
    ∧ getTruffleDeployFunction "main.example.com" "live" "t.js" (.num 1) =
        .deployToMainNetwork "live" "t.js"
    ∧ getTruffleDeployFunction "example.com:1234" "testnet" "t.js" (.str "3") =
        .deployToNetwork "testnet" "t.js" :=
  ⟨(getTruffleDeployFunction_classification "127.0.0.1:8545" "development" "t.js"
      (.num 5)).1 (by decide),
   (getTruffleDeployFunction_classification "main.example.com" "live" "t.js"
      (.num 1)).2.1 (by decide) (by decide),
   (getTruffleDeployFunction_classification "example.com:1234" "testnet" "t.js"
      (.str "3")).2.2 (by decide) (by decide)⟩

/-- C4: the candidate destination list assembled by deployContracts is the
concatenation, in order, of the static defaults, the destinations from the
truffle configuration, and the destinations from the persisted service tree. -/
theorem deployContracts_candidates_in_order (truffleConfigsUri : String)
    (networksFromConfig : List INetwork) (services : List Service) :
    deployContractsDestinations truffleConfigsUri networksFromConfig services =
      getDefaultDeployDestinations truffleConfigsUri
        ++ getTruffleDeployDestinations truffleConfigsUri networksFromConfig
        ++ getTreeDeployDestinations truffleConfigsUri services := by
  simp [deployContractsDestinations]

/-- C5: getTreeDeployDestinations yields exactly one destination per
NetworkNode child across all projects of all services, in order, each
labelled with the node label, described by the node RPC address and carrying
the node network id. -/
theorem getTreeDeployDestinations_one_per_node (truffleConfigPath : String)
    (services : List Service) :
    getTreeDeployDestinations truffleConfigPath services =
      ((services.map fun service => service.children).flatten.map fun project =>
          project.children.filterMap projectChildNetwork).flatten.map
        fun network =>
          { cmd := getServiceCreateFunction network truffleConfigPath
            description := some network.rpcAddress
            detail := some "Tree Item"
            label := network.label
            networkId := network.networkId } := by
  rw [getTreeDeployDestinations, treeProjects_eq, treeNetworks_eq]

/-- C3: in every run of deployToMainNetwork, every truffle migrate action is
preceded by the completed paid-operation confirmation dialog; when the dialog
throws (the user declines), the run ends and no migrate action occurs. -/
theorem deployToMainNetwork_confirm_before_migrate (networkName : String)
    (confirmed : Bool) (i : Nat) (m : String)
    (h : (deployToMainNetworkTrace networkName confirmed)[i]? =
      some (.executeMigrate m)) :
    ∃ j, j < i ∧ (deployToMainNetworkTrace networkName confirmed)[j]? =
      some Event.showConfirmPaidOperationDialog := by
  cases confirmed with
  | false =>
    match i with
    | 0 => simp [deployToMainNetworkTrace] at h
    | n + 1 => simp [deployToMainNetworkTrace] at h
  | true =>
    match i with
    | 0 => simp [deployToMainNetworkTrace] at h
    | 1 => simp [deployToMainNetworkTrace, deployToNetworkTrace] at h
    | 2 => exact ⟨0, by omega, by simp [deployToMainNetworkTrace]⟩
    | 3 => simp [deployToMainNetworkTrace, deployToNetworkTrace] at h
    | n + 4 => simp [deployToMainNetworkTrace, deployToNetworkTrace] at h

/-- Witness for C3: in the confirmed main-network run the migrate action sits
at index 2 and the confirmation dialog strictly before it. -/
theorem deployToMainNetwork_confirm_before_migrate_witness :
    (deployToMainNetworkTrace "live" true)[2]? =
        some (Event.executeMigrate "live")
    ∧ ∃ j, j < 2 ∧ (deployToMainNetworkTrace "live" true)[j]? =
        some Event.showConfirmPaidOperationDialog :=
  ⟨by decide,
   deployToMainNetwork_confirm_before_migrate "live" true 2 "live" (by decide)⟩

/-- C6: getServiceCreateFunction picks createLocalGanacheNetwork exactly for a
LocalNetworkNode on the default localhost port and createNetwork for every
other node; the local strategy starts the ganache server on the node port
before registering the network and deploying, and createNetwork registers the
network in the truffle configuration and then deploys. -/
theorem getServiceCreateFunction_classification (networkNode : NetworkNode)
    (truffleConfigPath : String) :
    (getServiceCreateFunction networkNode truffleConfigPath =
        .createLocalGanacheNetwork networkNode truffleConfigPath
      ↔ networkNode.kind = .localNetworkNode Constants.defaultLocalhostPort)
    ∧ (getServiceCreateFunction networkNode truffleConfigPath =
        .createLocalGanacheNetwork networkNode truffleConfigPath
      ∨ getServiceCreateFunction networkNode truffleConfigPath =
        .createNetwork networkNode truffleConfigPath)
    ∧ (∀ port, networkNode.kind = .localNetworkNode port →
        createLocalGanacheNetworkTrace networkNode truffleConfigPath =
          Event.startGanacheServer (some port)
            :: Event.setNetworks networkNode.truffleNetworkName
            :: deployToNetworkTrace networkNode.truffleNetworkName)
    ∧ createNetworkTrace networkNode truffleConfigPath =
        Event.setNetworks networkNode.truffleNetworkName
          :: deployToNetworkTrace networkNode.truffleNetworkName := by
  obtain ⟨kind, label, networkId, rpcAddress, truffleNetworkName⟩ := networkNode
  cases kind with
  | localNetworkNode port =>
    by_cases hp : port = Constants.defaultLocalhostPort
    · subst hp
      refine ⟨by simp [getServiceCreateFunction], Or.inl (by simp [getServiceCreateFunction]),
        ?_, rfl⟩
      intro port2 hport
      cases hport
      rfl
    · refine ⟨?_, Or.inr (by simp [getServiceCreateFunction, hp]), ?_, rfl⟩
      · constructor
        · intro hsel
          simp [getServiceCreateFunction, hp] at hsel
        · intro hkind
          cases hkind
          exact absurd rfl hp
      · intro port2 hport
        cases hport
        rfl
  | otherNetworkNode =>
    refine ⟨?_, Or.inr rfl, ?_, rfl⟩
    · constructor
      · intro hsel
        simp [getServiceCreateFunction] at hsel
      · intro hkind
        cases hkind
    · intro port2 hport
      cases hport

/-- A local ganache tree node on the default port, used to witness C6. -/
def localNodeW : NetworkNode :=
  { kind := .localNetworkNode 8545
    label := "ganache"
    networkId := .num 5
    rpcAddress := "127.0.0.1:8545"
    truffleNetworkName := "development" }

/-- Witness for C6: the default-port local node gets the local ganache
strategy, whose trace starts the server on port 8545 first. -/
theorem getServiceCreateFunction_classification_witness :
    getServiceCreateFunction localNodeW "t.js" =
        .createLocalGanacheNetwork localNodeW "t.js"
    ∧ createLocalGanacheNetworkTrace localNodeW "t.js" =
        Event.startGanacheServer (some 8545)
          :: Event.setNetworks "development"
          :: deployToNetworkTrace "development" :=
  ⟨((getServiceCreateFunction_classification localNodeW "t.js").1).mpr rfl,
   (getServiceCreateFunction_classification localNodeW "t.js").2.2.1 8545 rfl⟩

/-- C7: deployToLocalGanache first starts the ganache server on the port
extracted from the url, and only afterwards (at a strictly later position)
runs the migration. -/
theorem deployToLocalGanache_starts_ganache_first
    (networkName truffleConfigPath url : String) :
    (deployToLocalGanacheTrace networkName truffleConfigPath url)[0]? =
        some (Event.startGanacheServer (getPortFromUrl url))
    ∧ ∀ i m, (deployToLocalGanacheTrace networkName truffleConfigPath url)[i]? =
        some (Event.executeMigrate m) → 0 < i := by
  constructor
  · rfl
  · intro i m h
    match i with
    | 0 => simp [deployToLocalGanacheTrace] at h
    | n + 1 => omega

/-- Witness for C7: on the standard local url the server start on port 8545
is the first action and the migrate action sits later, at index 2. -/
theorem deployToLocalGanache_starts_ganache_first_witness :
    getPortFromUrl "127.0.0.1:8545" = some 8545
    ∧ (deployToLocalGanacheTrace "development" "t.js" "127.0.0.1:8545")[0]? =
        some (Event.startGanacheServer (getPortFromUrl "127.0.0.1:8545"))
    ∧ (deployToLocalGanacheTrace "development" "t.js" "127.0.0.1:8545")[2]? =
        some (Event.executeMigrate "development")
    ∧ 0 < 2 :=
  ⟨by decide,
   (deployToLocalGanache_starts_ganache_first "development" "t.js"
      "127.0.0.1:8545").1,
   by decide,
   (deployToLocalGanache_starts_ganache_first "development" "t.js"
      "127.0.0.1:8545").2 2 "development" (by decide)⟩

/-- C8: for a selected mnemonic with non-empty text, the key copied to the
clipboard is exactly the value produced by the library pipeline (hex encoding
of the child key at the fixed hardened derivation path of the HD key built
from the BIP-39 seed); when the library calls throw, the invalid-mnemonic
error is shown and nothing is written to the clipboard. -/
theorem getPrivateKeyFromMnemonic_derivation {Seed HdKey : Type}
    (lib : MnemonicLib Seed HdKey) (mnemonic : String) (h : mnemonic ≠ "") :
    (∀ privateKey, derivedPrivateKey lib mnemonic = .ok privateKey →
      getPrivateKeyFromMnemonicRun lib mnemonic =
        [.writeToClipboard privateKey,
         .showInformationMessage Constants.privateKeyWasCopiedToClipboard])
    ∧ (∀ errorMessage, derivedPrivateKey lib mnemonic = .error errorMessage →
      getPrivateKeyFromMnemonicRun lib mnemonic =
        [.showErrorMessage Constants.invalidMnemonic]
      ∧ ∀ s, Event.writeToClipboard s ∉ getPrivateKeyFromMnemonicRun lib mnemonic) := by
  constructor
  · intro privateKey hk
    simp [getPrivateKeyFromMnemonicRun, h, hk]
  · intro errorMessage hk
    constructor
    · simp [getPrivateKeyFromMnemonicRun, h, hk]
    · intro s
      simp [getPrivateKeyFromMnemonicRun, h, hk]

/-- A degenerate instance of the key-derivation libraries in which every call
succeeds, used to witness C8. -/
def mnemonicLibW : MnemonicLib Unit Unit :=
  { mnemonicToSeed := fun _ => .ok ()
    fromMasterSeed := fun _ => .ok ()
    deriveChild := fun _ _ => .ok ()
    privateKeyHex := fun _ => .ok "0abc" }

/-- Witness for C8: a non-empty mnemonic whose derivation succeeds gets its
derived key written to the clipboard followed by the confirmation message. -/
theorem getPrivateKeyFromMnemonic_derivation_witness :
    "candy maple cake" ≠ ""
    ∧ derivedPrivateKey mnemonicLibW "candy maple cake" = .ok "0abc"
    ∧ getPrivateKeyFromMnemonicRun mnemonicLibW "candy maple cake" =
        [.writeToClipboard "0abc",
         .showInformationMessage Constants.privateKeyWasCopiedToClipboard] :=
  ⟨by decide, rfl,
   (getPrivateKeyFromMnemonic_derivation mnemonicLibW "candy maple cake"
      (by decide)).1 "0abc" rfl⟩

/-- C9: when some validated OpenZeppelin contract is missing on disk or has an
invalid hash, the deployContracts tail throws the invalid-files error before
invoking the selected deployment command, so no deployment actions occur. -/
theorem deployContracts_invalid_contracts_block_deploy (cmdTrace : List Event)
    (validatedContracts : List OZContractValidated)
    (ozContract : OZContractValidated)
    (hmem : ozContract ∈ validatedContracts)
    (hbad : ozContract.isExistedOnDisk = false ∨ ozContract.isHashValid = false) :
    deployContractsRun cmdTrace validatedContracts =
      .error (Constants.openZeppelinFilesAreInvalid
        (invalidContractsPaths validatedContracts))
    ∧ ∀ events, deployContractsRun cmdTrace validatedContracts ≠ .ok events := by
  have hmem2 : ozContract ∈ validatedContracts.filter
      (fun c => !c.isExistedOnDisk || !c.isHashValid) := by
    refine List.mem_filter.mpr ⟨hmem, ?_⟩
    rcases hbad with hb | hb <;> simp [hb]
  have hne : (invalidContractsPaths validatedContracts).length ≠ 0 := by
    have hpos : 0 < (validatedContracts.filter
        (fun c => !c.isExistedOnDisk || !c.isHashValid)).length :=
      List.length_pos.mpr (List.ne_nil_of_mem hmem2)
    unfold invalidContractsPaths
    simp only [List.length_map]
    omega
  have hval : validateOpenZeppelinContracts validatedContracts =
      .error (Constants.openZeppelinFilesAreInvalid
        (invalidContractsPaths validatedContracts)) := by
    unfold validateOpenZeppelinContracts
    rw [if_pos hne]
  constructor
  · simp [deployContractsRun, hval]
  · intro events
    simp [deployContractsRun, hval]

/-- Witness for C9: a single contract missing on disk blocks the run with the
invalid-files error. -/
theorem deployContracts_invalid_contracts_block_deploy_witness :
    ((⟨"contracts/Billboard.sol", false, true⟩ : OZContractValidated) ∈
        [(⟨"contracts/Billboard.sol", false, true⟩ : OZContractValidated)])
    ∧ deployContractsRun [] [⟨"contracts/Billboard.sol", false, true⟩] =
        .error (Constants.openZeppelinFilesAreInvalid
          (invalidContractsPaths [⟨"contracts/Billboard.sol", false, true⟩])) :=
  ⟨by decide,
   (deployContracts_invalid_contracts_block_deploy []
      [⟨"contracts/Billboard.sol", false, true⟩]
      ⟨"contracts/Billboard.sol", false, true⟩ (by decide) (Or.inl rfl)).1⟩

/-- C10: Project.getRPCAddress returns the empty string when the project has
no NetworkNode children and the RPC address of the first NetworkNode child
otherwise; writeRPCEndpointAddressToBuffer writes to the clipboard, followed
by the confirmation message, exactly when that address is non-empty, and the
text written is that address. -/
theorem project_getRPCAddress_first_network (project : Project) :
    (project.children.filterMap projectChildNetwork = [] →
      project.getRPCAddress = "")
    ∧ (∀ node rest,
        project.children.filterMap projectChildNetwork = node :: rest →
      project.getRPCAddress = node.rpcAddress)
    ∧ (∀ s, Event.writeToClipboard s ∈ writeRPCEndpointAddressToBufferRun project →
      project.getRPCAddress ≠ "" ∧ s = project.getRPCAddress)
    ∧ (writeRPCEndpointAddressToBufferRun project = [] ∨
      writeRPCEndpointAddressToBufferRun project =
        [.writeToClipboard project.getRPCAddress,
         .showInformationMessage Constants.rpcEndpointCopiedToClipboard]) := by
  refine ⟨?_, ?_, ?_, ?_⟩
  · intro h
    simp [Project.getRPCAddress, h]
  · intro node rest h
    simp [Project.getRPCAddress, h]
  · intro s hs
    by_cases h : project.getRPCAddress = ""
    · simp [writeRPCEndpointAddressToBufferRun, h] at hs
    · simp [writeRPCEndpointAddressToBufferRun, h] at hs
      exact ⟨h, hs⟩
  · by_cases h : project.getRPCAddress = ""
    · exact Or.inl (by simp [writeRPCEndpointAddressToBufferRun, h])
    · exact Or.inr (by simp [writeRPCEndpointAddressToBufferRun, h])

/-- A network tree node used to witness C10. -/
def networkNodeW : NetworkNode :=
  { kind := .otherNetworkNode
    label := "node1"
    networkId := .num 3
    rpcAddress := "http://node1.example.com:8545"
    truffleNetworkName := "node1" }

/-- A project with one non-network child followed by one network child, used
to witness C10. -/
def projectW : Project :=
  { children := [.other "member", .network networkNodeW] }

/-- Witness for C10: on a project whose first NetworkNode child is
networkNodeW, getRPCAddress returns its address and the buffer write is that
address. -/
theorem project_getRPCAddress_first_network_witness :
    projectW.children.filterMap projectChildNetwork = [networkNodeW]
    ∧ projectW.getRPCAddress = networkNodeW.rpcAddress
    ∧ projectW.getRPCAddress ≠ ""
    ∧ "http://node1.example.com:8545" = projectW.getRPCAddress :=
  ⟨rfl,
   (project_getRPCAddress_first_network projectW).2.1 networkNodeW [] rfl,
   ((project_getRPCAddress_first_network projectW).2.2.1
     "http://node1.example.com:8545" (by decide)).1,
   ((project_getRPCAddress_first_network projectW).2.2.1
     "http://node1.example.com:8545" (by decide)).2⟩

end AzureBlockchain
